import Mathlib

/-!
Verification of the SeismicGuard Pro dashboard (src/app.py) against its
specification. The Python source is shallowly embedded: the flat-file
credential store becomes an association list guarded by an explicit file
state, the Streamlit session dictionary becomes a `SessionState` record, and
the pickled classifier/scaler pair becomes a `Bundle` of explicit functions,
so that every claim about the glue code can be stated and settled in Lean.
-/

namespace SeismicGuard

/-- Association-list model of the JSON object persisted in `users.json`,
mapping username strings to plaintext password strings. -/
abbrev Store := List (String × String)

/-- The default mapping synthesized when the credential file is absent:
the single seeded admin credential from src/app.py line 18. -/
def defaultUsers : Store := [("admin", "seismic2024")]

/-- State of the persisted credential file: absent, present with content
that `json.load` parses to a mapping, or present but unparseable. -/
inductive FileState
  | absent
  | valid (users : Store)
  | malformed
deriving DecidableEq

/-- Embedding of `load_users` (src/app.py lines 16-20): if the file does
not exist, return the default admin mapping; otherwise parse it with
`json.load`. There is no try/except in this function, so a present but
unparseable file raises the decode error to the caller. -/
def load_users : FileState → Except String Store
  | .absent => .ok defaultUsers
  | .valid users => .ok users
  | .malformed => .error "json.decoder.JSONDecodeError"

/-- Embedding of `save_user` (src/app.py lines 22-28): reload the store;
return `False` without writing when the username is already a key;
otherwise add the pair and overwrite the file with the full mapping,
returning `True`. An error raised by `load_users` propagates. -/
def save_user (fs : FileState) (username password : String) :
    Except String (Bool × FileState) :=
  match load_users fs with
  | .error e => .error e
  | .ok users =>
    if (users.lookup username).isSome then
      .ok (false, fs)
    else
      .ok (true, .valid (users ++ [(username, password)]))

/-- One row of the in-session analysis history (src/app.py lines 161-165):
wall-clock time string, input magnitude, and predicted level. -/
structure HistoryEntry where
  time : String
  magnitude : ℚ
  level : String
deriving DecidableEq

/-- The Streamlit session dictionary (src/app.py lines 56-61): login flag,
current username, and the history list of past predictions. -/
structure SessionState where
  logged_in : Bool
  user : Option String
  history : List HistoryEntry
deriving DecidableEq

/-- Session state at first page load (src/app.py lines 56-61). -/
def initialSession : SessionState := ⟨false, none, []⟩

/-- Embedding of the sidebar Logout handler (src/app.py lines 120-122):
it sets `st.session_state['logged_in'] = False` and reruns; no other
session key is touched. -/
def logout (s : SessionState) : SessionState := { s with logged_in := false }

/-- Embedding of the Sign In handler (src/app.py lines 93-100): load the
store; if the username is a key and the stored password equals the
submitted one, set `logged_in` and `user`; otherwise leave the session
unchanged and report failure. -/
def signIn (fs : FileState) (user pw : String) (s : SessionState) :
    Except String (Bool × SessionState) :=
  match load_users fs with
  | .error e => .error e
  | .ok users =>
    if users.lookup user = some pw then
      .ok (true, { s with logged_in := true, user := some user })
    else
      .ok (false, s)

/-- The pickled classifier: `predict` returns an array of class indices and
`predict_proba` an array of per-class probability rows; the caller takes
element `[0]` of each (src/app.py lines 147-148). -/
structure Model where
  predict : List ℚ → List Nat
  predict_proba : List ℚ → List (List ℚ)

/-- The three artifacts returned by `load_assets` on success (src/app.py
lines 64-79): classifier, feature scaler, and ordered feature-name list. -/
structure Bundle where
  model : Model
  scaler : List ℚ → List ℚ
  feature_names : List String

/-- Severity labels, indexed by predicted class (src/app.py line 151). -/
def levels : List String := ["LOW", "MEDIUM", "HIGH", "CRITICAL"]

/-- Card colors, indexed by predicted class (src/app.py line 152). -/
def colors : List String := ["#28a745", "#ffc107", "#fd7e14", "#dc3545"]

/-- Card descriptions, indexed by predicted class (src/app.py lines
153-158). -/
def descriptions : List String :=
  ["Minor shaking. No damage reported. Routine monitoring.",
   "Moderate shaking. Potential minor damage to old buildings.",
   "Severe shaking. Structural damage likely. High alert.",
   "Disastrous impact. Extreme damage expected. Emergency response active."]

/-- One Run Analysis action: the five bounded numeric inputs from the form
(src/app.py lines 131-135) together with the wall-clock time string used
for the history entry. -/
structure AnalysisRequest where
  now : String
  mag : ℚ
  dep : ℚ
  mmi : ℚ
  cdi : ℚ
  sig : ℚ
deriving DecidableEq

/-- The one-row raw feature frame built at src/app.py line 145:
`pd.DataFrame([[mag, dep, cdi, mmi, sig]], columns=feature_names)`.
The values are placed in this fixed order regardless of what
`feature_names` holds; the names only label the positions. -/
def rawFeatureRow (r : AnalysisRequest) : List ℚ :=
  [r.mag, r.dep, r.cdi, r.mmi, r.sig]

/-- What the result card and gauge render (src/app.py lines 167-196):
level, description, card color, and the confidence probability. -/
structure AnalysisResult where
  level : String
  description : String
  color : String
  confidence : ℚ
deriving DecidableEq

/-- Outcome of pressing Run Analysis: either the model-unavailable error
(src/app.py lines 140-142) or a rendered result. -/
inductive AnalyzeOutcome
  | modelError
  | result (r : AnalysisResult)
deriving DecidableEq

/-- `model.predict(scaled)[0]` (src/app.py line 147). -/
def predIdx (b : Bundle) (r : AnalysisRequest) : Nat :=
  (b.model.predict (b.scaler (rawFeatureRow r))).getD 0 0

/-- `model.predict_proba(scaled)[0]` (src/app.py line 148). -/
def probsOf (b : Bundle) (r : AnalysisRequest) : List ℚ :=
  (b.model.predict_proba (b.scaler (rawFeatureRow r))).getD 0 []

/-- The history entry inserted at the front of the list (src/app.py lines
161-165). -/
def mkEntry (b : Bundle) (r : AnalysisRequest) : HistoryEntry :=
  ⟨r.now, r.mag, levels.getD (predIdx b r) ""⟩

/-- Embedding of the Run Analysis handler (src/app.py lines 139-196):
if the model bundle is unavailable, show an error and return without
touching the session; otherwise scale the raw row, take the predicted
index and probability row, insert a history entry at position 0, and
render the result card and gauge from `levels`, `descriptions`, `colors`
and `probs[pred_idx]`. -/
def runAnalysis (bundle : Option Bundle) (r : AnalysisRequest)
    (s : SessionState) : AnalyzeOutcome × SessionState :=
  match bundle with
  | none => (.modelError, s)
  | some b =>
    let i := predIdx b r
    let probs := probsOf b r
    (.result ⟨levels.getD i "", descriptions.getD i "", colors.getD i "",
        probs.getD i 0⟩,
     { s with history := mkEntry b r :: s.history })

/-- N sequential Run Analysis actions in one session. -/
def runAll (b : Bundle) (reqs : List AnalysisRequest) (s : SessionState) :
    SessionState :=
  reqs.foldl (fun st r => (runAnalysis (some b) r st).2) s

/-- Modelled from the spec (refinement side for the feature-order claim):
the value of each named input, under the canonical feature names in the
fixed order the code assumes. -/
def namedInput (r : AnalysisRequest) : String → Option ℚ
  | "magnitude" => some r.mag
  | "depth" => some r.dep
  | "cdi" => some r.cdi
  | "mmi" => some r.mmi
  | "sig" => some r.sig
  | _ => none

/-- Modelled from the spec (refinement side): the feature row the caller
would build if it mapped each named input to its position in the
feature-order list. -/
def specFeatureRow (names : List String) (r : AnalysisRequest) :
    List (Option ℚ) :=
  names.map (namedInput r)

/-- The five feature names in the fixed order the code writes the values
(magnitude, depth, CDI, MMI, significance). -/
def canonicalNames : List String := ["magnitude", "depth", "cdi", "mmi", "sig"]

/-- A concrete request: the spec's concrete scenario inputs
(mag=7.2, depth=15.0, mmi=8.0, cdi=7.5, sig=600). -/
def testReq : AnalysisRequest := ⟨"12:00:00", 36/5, 15, 8, 15/2, 600⟩

/-- A concrete classifier that predicts class 2 with probability row
[0.05, 0.10, 0.70, 0.15], as in the spec's concrete scenario. -/
def testModel : Model :=
  ⟨fun _ => [2], fun _ => [[1/20, 1/10, 7/10, 3/20]]⟩

/-- A concrete bundle around `testModel` with the identity scaler. -/
def testBundle : Bundle := ⟨testModel, id, canonicalNames⟩

/-- A second concrete request, for exercising sequential analyses. -/
def testReq2 : AnalysisRequest := ⟨"12:00:05", 5, 10, 6, 6, 300⟩

/-- The documented input bounds, enforced by the bounded numeric form
fields (src/app.py lines 131-135): magnitude in [0,10], depth in [0,700],
MMI in [1,12], CDI in [1,12], significance in [0,1000]. -/
def validInput (r : AnalysisRequest) : Prop :=
  0 ≤ r.mag ∧ r.mag ≤ 10 ∧ 0 ≤ r.dep ∧ r.dep ≤ 700 ∧
  1 ≤ r.mmi ∧ r.mmi ≤ 12 ∧ 1 ≤ r.cdi ∧ r.cdi ≤ 12 ∧
  0 ≤ r.sig ∧ r.sig ≤ 1000

instance (r : AnalysisRequest) : Decidable (validInput r) := by
  unfold validInput; infer_instance

/-! ## Helper lemmas -/

theorem lookup_append_self (l : Store) (u p : String)
    (h : l.lookup u = none) : (l ++ [(u, p)]).lookup u = some p := by
  induction l with
  | nil => simp [List.lookup]
  | cons hd tl ih =>
    obtain ⟨k, v⟩ := hd
    simp only [List.cons_append, List.lookup] at h ⊢
    cases hk : u == k with
    | true => rw [hk] at h; exact Option.noConfusion h
    | false => rw [hk] at h; exact ih h

/-! ## Claims -/

/-- C3: registering a username already present in the store returns
conflict (`False`) and leaves the persisted file completely unchanged. -/
theorem register_conflict_no_mutation (fs : FileState) (users : Store)
    (u p pw₀ : String) (hload : load_users fs = .ok users)
    (hmem : users.lookup u = some pw₀) :
    save_user fs u p = .ok (false, fs) := by
  simp [save_user, hload, hmem]

/-- C3 witness: after registering "alice"/"pw1" into an absent store, a
second `save_user "alice" "pw2"` fails, the file is unchanged, and the
stored password for "alice" remains "pw1". -/
theorem register_conflict_no_mutation_witness :
    save_user .absent "alice" "pw1"
      = .ok (true, .valid (defaultUsers ++ [("alice", "pw1")])) ∧
    save_user (.valid (defaultUsers ++ [("alice", "pw1")])) "alice" "pw2"
      = .ok (false, .valid (defaultUsers ++ [("alice", "pw1")])) ∧
    (defaultUsers ++ [("alice", "pw1")]).lookup "alice" = some "pw1" :=
  ⟨rfl,
   register_conflict_no_mutation (.valid (defaultUsers ++ [("alice", "pw1")]))
     (defaultUsers ++ [("alice", "pw1")]) "alice" "pw2" "pw1" rfl (by decide),
   by decide⟩

/-- C4: registering a fresh username returns success, overwrites the file
with the full mapping, and a subsequent `load_users` returns a mapping
containing that username with exactly the submitted password. -/
theorem register_fresh_persists (fs : FileState) (users : Store)
    (u p : String) (hload : load_users fs = .ok users)
    (hfresh : users.lookup u = none) :
    save_user fs u p = .ok (true, .valid (users ++ [(u, p)])) ∧
    load_users (.valid (users ++ [(u, p)])) = .ok (users ++ [(u, p)]) ∧
    (users ++ [(u, p)]).lookup u = some p := by
  refine ⟨?_, rfl, lookup_append_self users u p hfresh⟩
  simp [save_user, hload, hfresh]

/-- C4 witness: registering "alice"/"pw1" into an absent store succeeds
and the reloaded mapping holds "alice" ↦ "pw1". -/
theorem register_fresh_persists_witness :
    save_user .absent "alice" "pw1"
      = .ok (true, .valid (defaultUsers ++ [("alice", "pw1")])) ∧
    load_users (.valid (defaultUsers ++ [("alice", "pw1")]))
      = .ok (defaultUsers ++ [("alice", "pw1")]) ∧
    (defaultUsers ++ [("alice", "pw1")]).lookup "alice" = some "pw1" :=
  register_fresh_persists .absent defaultUsers "alice" "pw1" rfl (by decide)

/-- C5 counterexample: the claim says Logout sets `user` to none, but the
handler only clears `logged_in`; from a session logged in as "admin",
`user` is still `some "admin"` after logout. -/
theorem logout_counterexample :
    (logout ⟨true, some "admin", []⟩).user = some "admin" ∧
    (logout ⟨true, some "admin", []⟩).user ≠ none := by
  constructor
  · rfl
  · intro h
    simp [logout] at h

/-- C5 amended: Logout sets `logged_in` to false and leaves both `user`
and the history sequence unchanged (it does not reset `user` to none and
does not clear history). -/
theorem logout_only_clears_flag (s : SessionState) :
    (logout s).logged_in = false ∧ (logout s).user = s.user ∧
    (logout s).history = s.history := ⟨rfl, rfl, rfl⟩

/-- C6 counterexample: the claim says a malformed persisted file collapses
to file-absent semantics, but `load_users` has no try/except: on a present
but unparseable file the decode error propagates to the caller instead of
returning the default mapping. -/
theorem load_users_malformed_raises :
    load_users .malformed = .error "json.decoder.JSONDecodeError" ∧
    load_users .malformed ≠ load_users .absent := by
  refine ⟨rfl, ?_⟩
  intro h
  simp [load_users] at h

/-- C6 amended: `load_users` returns the seeded default admin mapping when
the file is absent and the parsed mapping when the file is present and
parseable, but when the file is present and malformed the parse error
propagates to the caller rather than collapsing to file-absent
semantics. -/
theorem load_users_behaviour :
    load_users .absent = .ok defaultUsers ∧
    (∀ users, load_users (.valid users) = .ok users) ∧
    load_users .malformed = .error "json.decoder.JSONDecodeError" :=
  ⟨rfl, fun _ => rfl, rfl⟩

/-- C7: when the model bundle is unavailable, Run Analysis reports the
error outcome, produces no result, and leaves the session (in particular
the history) completely unchanged. -/
theorem analysis_aborts_without_model (r : AnalysisRequest)
    (s : SessionState) :
    runAnalysis none r s = (.modelError, s) ∧
    (runAnalysis none r s).2.history = s.history := ⟨rfl, rfl⟩

/-- C9: against an absent credential file, signing in with the seeded
default admin credential succeeds, setting `logged_in` to true and `user`
to "admin". -/
theorem admin_login_succeeds (s : SessionState) :
    signIn .absent "admin" "seismic2024" s
      = .ok (true, { s with logged_in := true, user := some "admin" }) := by
  simp [signIn, load_users, defaultUsers, List.lookup]

theorem runAll_history (b : Bundle) (reqs : List AnalysisRequest)
    (s : SessionState) :
    (runAll b reqs s).history = (reqs.map (mkEntry b)).reverse ++ s.history := by
  induction reqs generalizing s with
  | nil => simp [runAll]
  | cons r rs ih =>
    rw [show runAll b (r :: rs) s
        = runAll b rs ((runAnalysis (some b) r s).2) from rfl, ih]
    simp [runAnalysis]

/-- C1: for valid inputs within the documented bounds, with a model whose
`predict` yields index `i` in 0..3 and whose `predict_proba` yields a
4-element probability row `p`, Run Analysis renders exactly one level of
{LOW, MEDIUM, HIGH, CRITICAL}, namely `levels[i]`, and a confidence in
[0,1] that equals `p[i]`, the probability at the returned class's index. -/
theorem inference_result_sound (b : Bundle) (r : AnalysisRequest)
    (s : SessionState) (i : Nat) (p : List ℚ) (_hr : validInput r)
    (hpred : b.model.predict (b.scaler (rawFeatureRow r)) = [i])
    (hi : i < 4)
    (hproba : b.model.predict_proba (b.scaler (rawFeatureRow r)) = [p])
    (hlen : p.length = 4)
    (hprob : ∀ x ∈ p, 0 ≤ x ∧ x ≤ 1) :
    ∃ res : AnalysisResult,
      (runAnalysis (some b) r s).1 = .result res ∧
      res.level = levels.getD i "" ∧ res.level ∈ levels ∧
      res.confidence = p.getD i 0 ∧
      0 ≤ res.confidence ∧ res.confidence ≤ 1 := by
  have hidx : predIdx b r = i := by simp [predIdx, hpred]
  have hpp : probsOf b r = p := by simp [probsOf, hproba]
  have hip : i < p.length := by omega
  have hil : i < levels.length := by simpa [levels] using hi
  have hmem : p.getD i 0 ∈ p := by
    rw [List.getD_eq_getElem p 0 hip]
    exact List.getElem_mem hip
  refine ⟨⟨levels.getD i "", descriptions.getD i "", colors.getD i "",
      p.getD i 0⟩, ?_, rfl, ?_, rfl, (hprob _ hmem).1, (hprob _ hmem).2⟩
  · simp [runAnalysis, hidx, hpp]
  · rw [List.getD_eq_getElem levels "" hil]
    exact List.getElem_mem hil

/-- C1 witness: the spec's concrete scenario — inputs (7.2, 15.0, 8.0,
7.5, 600) through a classifier yielding class 2 with probability row
[0.05, 0.10, 0.70, 0.15] — yields level "HIGH" with confidence 0.70. -/
theorem inference_result_sound_witness :
    ∃ res : AnalysisResult,
      (runAnalysis (some testBundle) testReq initialSession).1 = .result res ∧
      res.level = levels.getD 2 "" ∧ res.level ∈ levels ∧
      res.confidence = ([1/20, 1/10, 7/10, 3/20] : List ℚ).getD 2 0 ∧
      0 ≤ res.confidence ∧ res.confidence ≤ 1 :=
  inference_result_sound testBundle testReq initialSession 2
    [1/20, 1/10, 7/10, 3/20] (by norm_num [validInput, testReq]) rfl
    (by norm_num) rfl rfl
    (by
      intro x hx
      simp only [List.mem_cons, List.not_mem_nil, or_false] at hx
      rcases hx with h | h | h | h <;> subst h <;> constructor <;> norm_num)

/-- C2 counterexample: the code writes the raw values in the fixed order
[mag, dep, cdi, mmi, sig] regardless of the feature-order list; with the
permuted list ["depth", "magnitude", "cdi", "mmi", "sig"] and the concrete
scenario inputs, position 0 is labeled "depth" yet carries the magnitude
7.2 while the named input "depth" is 15, so the caller does not map named
inputs to the list's order. -/
theorem feature_order_counterexample :
    ((rawFeatureRow testReq).map some).head? = some (some (36/5)) ∧
    (specFeatureRow ["depth", "magnitude", "cdi", "mmi", "sig"]
        testReq).head? = some (some 15) ∧
    (rawFeatureRow testReq).map some
      ≠ specFeatureRow ["depth", "magnitude", "cdi", "mmi", "sig"] testReq := by
  refine ⟨rfl, rfl, fun h => ?_⟩
  have h0 := congrArg List.head? h
  have h1 : some (some (36/5 : ℚ)) = some (some (15 : ℚ)) := h0
  norm_num at h1

/-- C2 amended: the Run Analysis handler builds the raw feature vector in
the fixed order (magnitude, depth, CDI, MMI, significance) and labels the
positions with the Model Bundle's feature-order list positionally; the
value at each position equals the named input for that position exactly
when the list holds the names in that canonical fixed order. -/
theorem feature_order_fixed (r : AnalysisRequest) :
    rawFeatureRow r = [r.mag, r.dep, r.cdi, r.mmi, r.sig] ∧
    specFeatureRow canonicalNames r = (rawFeatureRow r).map some :=
  ⟨rfl, rfl⟩

/-- C8: each analysis inserts exactly one entry at the front: after N
sequential analyses in a session that started with an empty history, the
history has N entries and entry 0 is the entry of the Nth (most recent)
analysis performed. -/
theorem history_newest_first (b : Bundle) (reqs : List AnalysisRequest)
    (s : SessionState) (hne : reqs ≠ []) (hs : s.history = []) :
    (runAll b reqs s).history.length = reqs.length ∧
    (runAll b reqs s).history.head? = some (mkEntry b (reqs.getLast hne)) := by
  rw [runAll_history, hs, List.append_nil]
  refine ⟨by simp, ?_⟩
  rw [List.head?_reverse, List.getLast?_map,
    List.getLast?_eq_getLast reqs hne, Option.map_some']

/-- C8 witness: two analyses from an empty history leave two entries, the
entry of the second analysis at position 0. -/
theorem history_newest_first_witness :
    (runAll testBundle [testReq, testReq2] initialSession).history.length = 2 ∧
    (runAll testBundle [testReq, testReq2] initialSession).history.head?
      = some (mkEntry testBundle testReq2) := by
  have h := history_newest_first testBundle [testReq, testReq2]
    initialSession (by decide) rfl
  simpa using h

/-- C10: even with no persisted credential file, registering the seeded
admin username fails with a conflict and writes nothing: the in-memory
default mapping counts as "already present", so the file stays absent. -/
theorem admin_register_blocked (p : String) :
    save_user .absent "admin" p = .ok (false, .absent) := by
  simp [save_user, load_users, defaultUsers, List.lookup]

end SeismicGuard
